import Mathlib

/-!
Verification of the asset telemetry integration core of
`src/server/rest/v1/service/AssetService.ts`: a shallow embedding of the
four top-level operations (`handleGetAssetConsumption`,
`handleCheckAssetConnection`, `handleRetrieveConsumption`,
`handleGetAssetsInError`) together with theorems about their
error-handling, merge and filter-normalisation behaviour.

Conventions of the embedding:
* JavaScript `undefined`/`null` is `Option.none`; JS truthiness of an
  optional string treats the empty string as falsy.
* A thrown `AppError` / `AppAuthError` / assertion failure is an
  `Except.error`; a completed request carries the JSON response.
* Side effects on collaborators (the storage gateway's `saveAsset`, the
  consumption store's `getAssetConsumptions`, the in-error store query,
  error logging) are recorded in an explicit `Trace`.
* Dates are a pair of an instant (`millis`, compared the way
  `moment(a).isAfter(moment(b))` compares) and their `toISOString`
  rendering, kept abstract as a string.
-/

namespace AssetSvc

/-- One-character string holding the apostrophe (ASCII 39), used when
assembling the error messages of the source. -/
def quo : String := (Char.ofNat 39).toString

/-- A JS `Date` as used by the consumption-range request: the instant it
denotes plus its `toISOString()` rendering. -/
structure JSDate where
  millis : Int
  iso : String
  deriving Repr, DecidableEq

/-- One retrieved consumption sample (`AbstractCurrentConsumption`): the
live-state field group read by the merge at lines 187-201. Every field
may be absent (`undefined` in JS). -/
structure Consumption where
  lastConsumption : Option Int
  currentConsumptionWh : Option Int
  currentInstantAmps : Option Int
  currentInstantAmpsL1 : Option Int
  currentInstantAmpsL2 : Option Int
  currentInstantAmpsL3 : Option Int
  currentInstantVolts : Option Int
  currentInstantVoltsL1 : Option Int
  currentInstantVoltsL2 : Option Int
  currentInstantVoltsL3 : Option Int
  currentInstantWatts : Option Int
  currentInstantWattsL1 : Option Int
  currentInstantWattsL2 : Option Int
  currentInstantWattsL3 : Option Int
  currentStateOfCharge : Option Int
  deriving Repr, DecidableEq

/-- An asset record (`types/Asset.ts` as used by AssetService.ts): the
identity and descriptive fields, the live-state field group, audit
fields, and the `values` attribute populated by the historical query. -/
structure Asset where
  id : String
  name : String
  siteAreaID : Option String
  siteID : Option String
  assetType : String
  dynamicAsset : Bool
  connectionID : Option String
  meterID : String
  coordinates : List Int
  staticValueWatt : Int
  fluctuationPercent : Int
  excludeFromSmartCharging : Bool
  image : Option String
  createdBy : Option String
  createdOn : Option Int
  lastChangedBy : Option String
  lastChangedOn : Option Int
  lastConsumption : Option Int
  currentConsumptionWh : Option Int
  currentInstantAmps : Option Int
  currentInstantAmpsL1 : Option Int
  currentInstantAmpsL2 : Option Int
  currentInstantAmpsL3 : Option Int
  currentInstantVolts : Option Int
  currentInstantVoltsL1 : Option Int
  currentInstantVoltsL2 : Option Int
  currentInstantVoltsL3 : Option Int
  currentInstantWatts : Option Int
  currentInstantWattsL1 : Option Int
  currentInstantWattsL2 : Option Int
  currentInstantWattsL3 : Option Int
  currentStateOfCharge : Option Int
  values : List Consumption
  deriving Repr, DecidableEq

/-- A resolved connector handle (`AssetIntegration` as returned by
`AssetFactory.getAssetImpl`): a health probe that either succeeds or
throws with a message, and a sample retrieval whose array elements may
themselves be null. -/
structure AssetImpl where
  checkConnection : Except String Unit
  retrieveConsumptions : Asset → Bool → List (Option Consumption)

/-- The failures a handler can throw: failed component assertion, an
`AppAuthError`, a failed `assertIdIsProvided`, a failed
`assertObjectExists` (the 404 path), and an `AppError` with
`HTTPError.GENERAL_ERROR` carrying its message. -/
inductive SvcError where
  | componentInactive : SvcError
  | authError : SvcError
  | idNotProvided : SvcError
  | objectNotFound (message : String) : SvcError
  | appError (message : String) : SvcError
  deriving Repr, DecidableEq

/-- The JSON response of a completed request: the bare
`Constants.REST_RESPONSE_SUCCESS`, that constant merged with a
`connectionIsValid` flag, an asset document, or a store result list. -/
inductive RestResponse where
  | success : RestResponse
  | successWithConnection (connectionIsValid : Bool) : RestResponse
  | jsonAsset (asset : Asset) : RestResponse
  | jsonAssets (assets : List Asset) : RestResponse
  deriving Repr, DecidableEq

/-- The arguments of a `ConsumptionStorage.getAssetConsumptions` call
(line 77): the filter record passed to the consumption store. -/
structure ConsumptionQuery where
  assetID : String
  startDate : JSDate
  endDate : JSDate
  deriving Repr, DecidableEq

/-- The arguments of an `AssetStorage.getAssetsInError` call
(lines 231-243): the normalised filters plus the paging options. -/
structure InErrorQuery where
  search : Option String
  siteAreaIDs : Option (List String)
  siteIDs : Option (List String)
  errorType : List String
  limit : Int
  skip : Int
  sort : String
  onlyRecordCount : Bool
  deriving Repr, DecidableEq

/-- The observable side effects of one request: each `saveAsset` call
(tenant and asset saved), each consumption-store query, each in-error
store query, and each logged error (message, detailed message). -/
structure Trace where
  savedAssets : List (String × Asset) := []
  consumptionQueries : List ConsumptionQuery := []
  inErrorQueries : List InErrorQuery := []
  loggedErrors : List (String × String) := []
  deriving Repr, DecidableEq

/-- The environment of one request: the component/authorization oracles,
the filtered request parameters, and the collaborator services
(storage gateway, connector registry, stores). -/
structure World where
  componentActive : Bool
  tenantID : String
  canReadAsset : Bool
  canCheckAssetConnection : Bool
  canRetrieveAssetConsumption : Bool
  canListAssetsInError : Bool
  reqAssetID : Option String
  reqStartDate : Option JSDate
  reqEndDate : Option JSDate
  reqErrorType : Option String
  reqSiteAreaID : Option String
  reqSiteID : Option String
  reqSearch : Option String
  reqLimit : Int
  reqSkip : Int
  reqSort : String
  reqOnlyRecordCount : Bool
  getAsset : String → Option Asset
  getAssetImpl : Option String → Option AssetImpl
  assetConsumptionsResult : List Consumption
  assetsInErrorResult : List Asset

/-- JS truthiness of an optional string: `undefined` and the empty
string are falsy, every other string is truthy. Used for
`assertIdIsProvided` and for the ternaries on filter fields. -/
def strTruthy : Option String → Bool
  | none => false
  | some s => !s.isEmpty

/-- Splitter over the character list of a string: JS
`String.prototype.split` semantics for a one-character separator
(the empty string splits to one empty piece, separators at the ends
produce empty pieces). -/
def splitCharList (sep : Char) : List Char → List (List Char)
  | [] => [[]]
  | c :: cs =>
    let r := splitCharList sep cs
    if c = sep then [] :: r
    else
      match r with
      | [] => [[c]]
      | h :: t => (c :: h) :: t

/-- JS `s.split(sep)` for a one-character separator. -/
def jsSplit (s : String) (sep : Char) : List String :=
  (splitCharList sep s.data).map fun l => String.mk l

/-- Modelled from the spec: `Utils.isEmptyArray` (utils/Utils.ts is not
under src/) reports whether the retrieved array has no elements. -/
def isEmptyArray (l : List α) : Bool := l.isEmpty

/-- Modelled from the spec: `AssetInErrorType.MISSING_SITE_AREA`
(types/InError.ts is not under src/); the spec names the default error
category "missing site area". -/
def MISSING_SITE_AREA : String := "missing site area"

/-- The live-state overlay of lines 187-201 of AssetService.ts: each
field of the live-state group is assigned from the retrieved sample;
no other field of the asset is touched. -/
def mergeConsumption (asset : Asset) (consumption : Consumption) : Asset :=
  { asset with
    lastConsumption := consumption.lastConsumption,
    currentConsumptionWh := consumption.currentConsumptionWh,
    currentInstantAmps := consumption.currentInstantAmps,
    currentInstantAmpsL1 := consumption.currentInstantAmpsL1,
    currentInstantAmpsL2 := consumption.currentInstantAmpsL2,
    currentInstantAmpsL3 := consumption.currentInstantAmpsL3,
    currentInstantVolts := consumption.currentInstantVolts,
    currentInstantVoltsL1 := consumption.currentInstantVoltsL1,
    currentInstantVoltsL2 := consumption.currentInstantVoltsL2,
    currentInstantVoltsL3 := consumption.currentInstantVoltsL3,
    currentInstantWatts := consumption.currentInstantWatts,
    currentInstantWattsL1 := consumption.currentInstantWattsL1,
    currentInstantWattsL2 := consumption.currentInstantWattsL2,
    currentInstantWattsL3 := consumption.currentInstantWattsL3,
    currentStateOfCharge := consumption.currentStateOfCharge }

/-- The message of the `assertObjectExists` failure for a missing
asset. -/
def assetNotFoundMsg (assetID : String) : String :=
  ("Asset ID ") ++ quo ++ assetID ++ quo ++ (" does not exist")

/-- The message of the start-after-end `AppError` of line 70, with both
dates rendered by `toISOString()` (note the trailing space of the
source template). -/
def startAfterEndMsg (startDate endDate : JSDate) : String :=
  ("The requested start date ") ++ quo ++ startDate.iso ++ quo ++
    (" is after the end date ") ++ quo ++ endDate.iso ++ quo ++ (" ")

/-- `AssetService.handleRetrieveConsumption` (lines 138-211): component
assertion, authorization, id assertion, asset load, dynamic-asset
check, connector resolution, retrieval, merge of the first sample and
save, success acknowledgment. -/
def handleRetrieveConsumption (w : World) :
    Except SvcError RestResponse × Trace :=
  if !w.componentActive then (.error .componentInactive, {}) else
  if !w.canRetrieveAssetConsumption then (.error .authError, {}) else
  if !strTruthy w.reqAssetID then (.error .idNotProvided, {}) else
  match w.reqAssetID with
  | none => (.error .idNotProvided, {})
  | some assetID =>
    match w.getAsset assetID with
    | none => (.error (.objectNotFound (assetNotFoundMsg assetID)), {})
    | some asset =>
      if !asset.dynamicAsset then
        (.error (.appError
          ("This Asset is not dynamic, no consumption can be retrieved")), {})
      else
        match w.getAssetImpl asset.connectionID with
        | none => (.error (.appError ("Asset service is not configured")), {})
        | some assetImpl =>
          let consumptions := assetImpl.retrieveConsumptions asset true
          if !isEmptyArray consumptions then
            match consumptions.head? with
            | some (some consumption) =>
              let merged := mergeConsumption asset consumption
              (.ok .success, { savedAssets := [(w.tenantID, merged)] })
            | _ => (.ok .success, {})
          else
            (.ok .success, {})

/-- `AssetService.handleCheckAssetConnection` (lines 89-136): component
assertion, connector resolution (the `NotConfigured` error precedes
the authorization check), then the health probe with its
exception-to-boolean conversion. -/
def handleCheckAssetConnection (w : World) :
    Except SvcError RestResponse × Trace :=
  if !w.componentActive then (.error .componentInactive, {}) else
  match w.getAssetImpl w.reqAssetID with
  | none => (.error (.appError ("Asset service is not configured")), {})
  | some assetImpl =>
    if !w.canCheckAssetConnection then (.error .authError, {}) else
    match assetImpl.checkConnection with
    | .ok _ => (.ok (.successWithConnection true), {})
    | .error errMsg =>
      (.ok (.successWithConnection false),
        { loggedErrors := [(("Asset connection failed"), errMsg)] })

/-- `AssetService.handleGetAssetConsumption` (lines 29-87): component
assertion, id assertion, authorization, asset load, date-presence
check, date-order check, consumption-store query, response with the
values attached. -/
def handleGetAssetConsumption (w : World) :
    Except SvcError RestResponse × Trace :=
  if !w.componentActive then (.error .componentInactive, {}) else
  if !strTruthy w.reqAssetID then (.error .idNotProvided, {}) else
  if !w.canReadAsset then (.error .authError, {}) else
  match w.reqAssetID with
  | none => (.error .idNotProvided, {})
  | some assetID =>
    match w.getAsset assetID with
    | none => (.error (.objectNotFound (assetNotFoundMsg assetID)), {})
    | some asset =>
      match w.reqStartDate, w.reqEndDate with
      | some startDate, some endDate =>
        if startDate.millis > endDate.millis then
          (.error (.appError (startAfterEndMsg startDate endDate)), {})
        else
          let consumptions := w.assetConsumptionsResult
          (.ok (.jsonAsset { asset with values := consumptions }),
            { consumptionQueries :=
                [{ assetID := assetID, startDate := startDate,
                   endDate := endDate }] })
      | _, _ =>
        (.error (.appError ("Start date and end date must be provided")), {})

/-- `AssetService.handleGetAssetsInError` (lines 213-247): component
assertion, authorization, filter normalisation (bar-splitting of
`ErrorType`, `SiteAreaID`, `SiteID`, with the missing-site-area
default), in-error store query, response. -/
def handleGetAssetsInError (w : World) :
    Except SvcError RestResponse × Trace :=
  if !w.componentActive then (.error .componentInactive, {}) else
  if !w.canListAssetsInError then (.error .authError, {}) else
  let errorType :=
    match w.reqErrorType with
    | some s => if s.isEmpty then [MISSING_SITE_AREA] else jsSplit s (Char.ofNat 124)
    | none => [MISSING_SITE_AREA]
  let siteAreaIDs :=
    match w.reqSiteAreaID with
    | some s => if s.isEmpty then none else some (jsSplit s (Char.ofNat 124))
    | none => none
  let siteIDs :=
    match w.reqSiteID with
    | some s => if s.isEmpty then none else some (jsSplit s (Char.ofNat 124))
    | none => none
  (.ok (.jsonAssets w.assetsInErrorResult),
    { inErrorQueries :=
        [{ search := w.reqSearch, siteAreaIDs := siteAreaIDs,
           siteIDs := siteIDs, errorType := errorType,
           limit := w.reqLimit, skip := w.reqSkip, sort := w.reqSort,
           onlyRecordCount := w.reqOnlyRecordCount }] })


/-- A consumption sample with every field absent. -/
def emptyConsumption : Consumption :=
  { lastConsumption := none, currentConsumptionWh := none,
    currentInstantAmps := none, currentInstantAmpsL1 := none,
    currentInstantAmpsL2 := none, currentInstantAmpsL3 := none,
    currentInstantVolts := none, currentInstantVoltsL1 := none,
    currentInstantVoltsL2 := none, currentInstantVoltsL3 := none,
    currentInstantWatts := none, currentInstantWattsL1 := none,
    currentInstantWattsL2 := none, currentInstantWattsL3 := none,
    currentStateOfCharge := none }

/-- A baseline asset document for the concrete instantiations. -/
def baseAsset : Asset :=
  { id := ("A1"), name := ("Meter one"), siteAreaID := some ("SA1"),
    siteID := some ("S1"), assetType := ("CO"), dynamicAsset := true,
    connectionID := some ("meter-7"), meterID := ("M1"),
    coordinates := [1, 2], staticValueWatt := 100,
    fluctuationPercent := 5, excludeFromSmartCharging := false,
    image := none, createdBy := some ("U1"), createdOn := some 1000,
    lastChangedBy := none, lastChangedOn := none,
    lastConsumption := some 1, currentConsumptionWh := some 2,
    currentInstantAmps := some 3, currentInstantAmpsL1 := some 4,
    currentInstantAmpsL2 := some 5, currentInstantAmpsL3 := some 6,
    currentInstantVolts := some 7, currentInstantVoltsL1 := some 8,
    currentInstantVoltsL2 := some 9, currentInstantVoltsL3 := some 10,
    currentInstantWatts := some 11, currentInstantWattsL1 := some 12,
    currentInstantWattsL2 := some 13, currentInstantWattsL3 := some 14,
    currentStateOfCharge := some 15, values := [] }

/-- A connector handle that resolves nowhere: placeholder registry
value for worlds whose registry returns no handle. -/
def noImpl : Option String → Option AssetImpl := fun _ => none

/-- A baseline request environment for the concrete instantiations:
component active, every permission granted, asset `A1` requested, no
asset stored, no connector configured. -/
def baseWorld : World :=
  { componentActive := true, tenantID := ("T1"), canReadAsset := true,
    canCheckAssetConnection := true, canRetrieveAssetConsumption := true,
    canListAssetsInError := true, reqAssetID := some ("A1"),
    reqStartDate := none, reqEndDate := none, reqErrorType := none,
    reqSiteAreaID := none, reqSiteID := none, reqSearch := none,
    reqLimit := 100, reqSkip := 0, reqSort := ("name"),
    reqOnlyRecordCount := false, getAsset := fun _ => none,
    getAssetImpl := noImpl, assetConsumptionsResult := [],
    assetsInErrorResult := [] }


/-- A static (non-dynamic) asset. -/
def staticAsset : Asset := { baseAsset with dynamicAsset := false }

/-- World of the C1 instantiation: asset `A1` exists but is not
dynamic. -/
def w1 : World := { baseWorld with getAsset := fun _ => some staticAsset }

/-- C1: for every asset with `dynamicAsset = false`, the live-retrieval
operation fails with the `InvalidOperation` error message "This Asset
is not dynamic, no consumption can be retrieved" and the storage
gateway's `saveAsset` is never called (the effect trace is empty). -/
theorem C1_nondynamic_fails_without_save (w : World) (assetID : String)
    (asset : Asset)
    (hact : w.componentActive = true)
    (hauth : w.canRetrieveAssetConsumption = true)
    (hid : w.reqAssetID = some assetID)
    (hne : assetID ≠ (""))
    (hget : w.getAsset assetID = some asset)
    (hdyn : asset.dynamicAsset = false) :
    handleRetrieveConsumption w =
      (.error (.appError
        ("This Asset is not dynamic, no consumption can be retrieved")), {}) := by
  simp [handleRetrieveConsumption, hact, hauth, hid, hget, hdyn, strTruthy,
    String.isEmpty_iff, hne]

/-- C1 witness: the concrete world `w1` satisfies every hypothesis of
`C1_nondynamic_fails_without_save` and exhibits its conclusion. -/
theorem C1_witness :
    w1.componentActive = true ∧ w1.canRetrieveAssetConsumption = true ∧
    w1.reqAssetID = some ("A1") ∧ ("A1") ≠ ("") ∧
    w1.getAsset ("A1") = some staticAsset ∧
    staticAsset.dynamicAsset = false ∧
    handleRetrieveConsumption w1 =
      (.error (.appError
        ("This Asset is not dynamic, no consumption can be retrieved")), {}) :=
  ⟨rfl, rfl, rfl, by decide, rfl, rfl,
    C1_nondynamic_fails_without_save w1 ("A1") staticAsset rfl rfl rfl
      (by decide) rfl rfl⟩

/-- C2: a successful merge saves exactly the asset obtained by
overlaying the first retrieved sample, and that overlay updates
exactly the live-state field group while leaving every other asset
field equal to its pre-merge value. -/
theorem C2_merge_updates_exactly_live_state (w : World) (assetID : String)
    (asset : Asset) (assetImpl : AssetImpl) (consumption : Consumption)
    (rest : List (Option Consumption))
    (hact : w.componentActive = true)
    (hauth : w.canRetrieveAssetConsumption = true)
    (hid : w.reqAssetID = some assetID)
    (hne : assetID ≠ (""))
    (hget : w.getAsset assetID = some asset)
    (hdyn : asset.dynamicAsset = true)
    (himpl : w.getAssetImpl asset.connectionID = some assetImpl)
    (hret : assetImpl.retrieveConsumptions asset true =
      some consumption :: rest) :
    (handleRetrieveConsumption w).2.savedAssets =
        [(w.tenantID, mergeConsumption asset consumption)]
    ∧ (mergeConsumption asset consumption).id = asset.id
    ∧ (mergeConsumption asset consumption).name = asset.name
    ∧ (mergeConsumption asset consumption).siteAreaID = asset.siteAreaID
    ∧ (mergeConsumption asset consumption).siteID = asset.siteID
    ∧ (mergeConsumption asset consumption).assetType = asset.assetType
    ∧ (mergeConsumption asset consumption).dynamicAsset = asset.dynamicAsset
    ∧ (mergeConsumption asset consumption).connectionID = asset.connectionID
    ∧ (mergeConsumption asset consumption).meterID = asset.meterID
    ∧ (mergeConsumption asset consumption).coordinates = asset.coordinates
    ∧ (mergeConsumption asset consumption).staticValueWatt =
        asset.staticValueWatt
    ∧ (mergeConsumption asset consumption).fluctuationPercent =
        asset.fluctuationPercent
    ∧ (mergeConsumption asset consumption).excludeFromSmartCharging =
        asset.excludeFromSmartCharging
    ∧ (mergeConsumption asset consumption).image = asset.image
    ∧ (mergeConsumption asset consumption).createdBy = asset.createdBy
    ∧ (mergeConsumption asset consumption).createdOn = asset.createdOn
    ∧ (mergeConsumption asset consumption).lastChangedBy = asset.lastChangedBy
    ∧ (mergeConsumption asset consumption).lastChangedOn = asset.lastChangedOn
    ∧ (mergeConsumption asset consumption).values = asset.values
    ∧ (mergeConsumption asset consumption).lastConsumption =
        consumption.lastConsumption
    ∧ (mergeConsumption asset consumption).currentConsumptionWh =
        consumption.currentConsumptionWh
    ∧ (mergeConsumption asset consumption).currentInstantAmps =
        consumption.currentInstantAmps
    ∧ (mergeConsumption asset consumption).currentInstantAmpsL1 =
        consumption.currentInstantAmpsL1
    ∧ (mergeConsumption asset consumption).currentInstantAmpsL2 =
        consumption.currentInstantAmpsL2
    ∧ (mergeConsumption asset consumption).currentInstantAmpsL3 =
        consumption.currentInstantAmpsL3
    ∧ (mergeConsumption asset consumption).currentInstantVolts =
        consumption.currentInstantVolts
    ∧ (mergeConsumption asset consumption).currentInstantVoltsL1 =
        consumption.currentInstantVoltsL1
    ∧ (mergeConsumption asset consumption).currentInstantVoltsL2 =
        consumption.currentInstantVoltsL2
    ∧ (mergeConsumption asset consumption).currentInstantVoltsL3 =
        consumption.currentInstantVoltsL3
    ∧ (mergeConsumption asset consumption).currentInstantWatts =
        consumption.currentInstantWatts
    ∧ (mergeConsumption asset consumption).currentInstantWattsL1 =
        consumption.currentInstantWattsL1
    ∧ (mergeConsumption asset consumption).currentInstantWattsL2 =
        consumption.currentInstantWattsL2
    ∧ (mergeConsumption asset consumption).currentInstantWattsL3 =
        consumption.currentInstantWattsL3
    ∧ (mergeConsumption asset consumption).currentStateOfCharge =
        consumption.currentStateOfCharge := by
  refine ⟨?_, rfl, rfl, rfl, rfl, rfl, rfl, rfl, rfl, rfl, rfl, rfl, rfl,
    rfl, rfl, rfl, rfl, rfl, rfl, rfl, rfl, rfl, rfl, rfl, rfl, rfl, rfl,
    rfl, rfl, rfl, rfl, rfl, rfl, rfl⟩
  simp [handleRetrieveConsumption, hact, hauth, hid, hget, hdyn, himpl, hret,
    strTruthy, String.isEmpty_iff, hne, isEmptyArray]

/-- A fully populated retrieved sample for the C2 instantiation. -/
def sample2 : Consumption :=
  { lastConsumption := some 101, currentConsumptionWh := some 102,
    currentInstantAmps := some 103, currentInstantAmpsL1 := some 104,
    currentInstantAmpsL2 := some 105, currentInstantAmpsL3 := some 106,
    currentInstantVolts := some 107, currentInstantVoltsL1 := some 108,
    currentInstantVoltsL2 := some 109, currentInstantVoltsL3 := some 110,
    currentInstantWatts := some 111, currentInstantWattsL1 := some 112,
    currentInstantWattsL2 := some 113, currentInstantWattsL3 := some 114,
    currentStateOfCharge := some 115 }

/-- A connector returning the single sample `sample2`. -/
def impl2 : AssetImpl :=
  { checkConnection := .ok (), retrieveConsumptions := fun _ _ => [some sample2] }

/-- World of the C2 instantiation: dynamic asset `A1`, connector
resolving to `impl2`. -/
def w2 : World :=
  { baseWorld with
    getAsset := fun _ => some baseAsset,
    getAssetImpl := fun _ => some impl2 }

/-- C2 witness: the concrete world `w2` satisfies every hypothesis of
`C2_merge_updates_exactly_live_state`; the merged asset is saved and
keeps its descriptive fields. -/
theorem C2_witness :
    w2.componentActive = true ∧ w2.canRetrieveAssetConsumption = true ∧
    w2.reqAssetID = some ("A1") ∧ ("A1") ≠ ("") ∧
    w2.getAsset ("A1") = some baseAsset ∧
    baseAsset.dynamicAsset = true ∧
    w2.getAssetImpl baseAsset.connectionID = some impl2 ∧
    impl2.retrieveConsumptions baseAsset true = [some sample2] ∧
    (handleRetrieveConsumption w2).2.savedAssets =
      [(("T1"), mergeConsumption baseAsset sample2)] ∧
    (mergeConsumption baseAsset sample2).name = baseAsset.name ∧
    (mergeConsumption baseAsset sample2).currentInstantWatts =
      sample2.currentInstantWatts := by
  refine ⟨by rfl, by rfl, by rfl, by decide, by rfl, by rfl, by rfl, by rfl,
    ?_, by rfl, by rfl⟩
  exact (C2_merge_updates_exactly_live_state w2 ("A1") baseAsset impl2
    sample2 [] (by rfl) (by rfl) (by rfl) (by decide) (by rfl) (by rfl)
    (by rfl) (by rfl)).1

/-- C3: for every dynamic asset whose resolved connector returns a
sample sequence whose first element is a (non-null) sample, the
operation overlays exactly that first sample onto the asset, calls
`saveAsset` exactly once with the merged asset, and answers with the
success acknowledgment. -/
theorem C3_first_sample_merged_and_saved (w : World) (assetID : String)
    (asset : Asset) (assetImpl : AssetImpl) (consumption : Consumption)
    (rest : List (Option Consumption))
    (hact : w.componentActive = true)
    (hauth : w.canRetrieveAssetConsumption = true)
    (hid : w.reqAssetID = some assetID)
    (hne : assetID ≠ (""))
    (hget : w.getAsset assetID = some asset)
    (hdyn : asset.dynamicAsset = true)
    (himpl : w.getAssetImpl asset.connectionID = some assetImpl)
    (hret : assetImpl.retrieveConsumptions asset true =
      some consumption :: rest) :
    handleRetrieveConsumption w =
      (.ok .success,
        { savedAssets := [(w.tenantID, mergeConsumption asset consumption)] }) := by
  simp [handleRetrieveConsumption, hact, hauth, hid, hget, hdyn, himpl, hret,
    strTruthy, String.isEmpty_iff, hne, isEmptyArray]

/-- The retrieved sample of the specification scenario:
`currentInstantWatts = 4200`, `currentStateOfCharge = 73`. -/
def sample3 : Consumption :=
  { emptyConsumption with
    currentInstantWatts := some 4200,
    currentStateOfCharge := some 73 }

/-- A connector returning the single sample `sample3`. -/
def impl3 : AssetImpl :=
  { checkConnection := .ok (), retrieveConsumptions := fun _ _ => [some sample3] }

/-- World of the C3 scenario: dynamic asset `A1` with
`connectionID = "meter-7"` resolving to `impl3`. -/
def w3 : World :=
  { baseWorld with
    getAsset := fun _ => some baseAsset,
    getAssetImpl := fun _ => some impl3 }

/-- C3 witness: the specification scenario. The persisted asset has
`currentInstantWatts = 4200` and `currentStateOfCharge = 73`, and
`saveAsset` is called exactly once. -/
theorem C3_witness :
    w3.componentActive = true ∧ w3.canRetrieveAssetConsumption = true ∧
    w3.reqAssetID = some ("A1") ∧ ("A1") ≠ ("") ∧
    w3.getAsset ("A1") = some baseAsset ∧
    baseAsset.dynamicAsset = true ∧
    baseAsset.connectionID = some ("meter-7") ∧
    w3.getAssetImpl baseAsset.connectionID = some impl3 ∧
    impl3.retrieveConsumptions baseAsset true = [some sample3] ∧
    handleRetrieveConsumption w3 =
      (.ok .success,
        { savedAssets := [(("T1"), mergeConsumption baseAsset sample3)] }) ∧
    (mergeConsumption baseAsset sample3).currentInstantWatts = some 4200 ∧
    (mergeConsumption baseAsset sample3).currentStateOfCharge = some 73 ∧
    (handleRetrieveConsumption w3).2.savedAssets.length = 1 := by
  refine ⟨by rfl, by rfl, by rfl, by decide, by rfl, by rfl, by rfl, by rfl,
    by rfl, ?_, by rfl, by rfl, by rfl⟩
  exact C3_first_sample_merged_and_saved w3 ("A1") baseAsset impl3 sample3 []
    (by rfl) (by rfl) (by rfl) (by decide) (by rfl) (by rfl) (by rfl) (by rfl)

/-- C6: for every dynamic asset whose resolved connector returns an
empty sample sequence, the operation performs no merge and no save
(the effect trace is empty) and still answers with the success
acknowledgment. -/
theorem C6_empty_sequence_soft_success (w : World) (assetID : String)
    (asset : Asset) (assetImpl : AssetImpl)
    (hact : w.componentActive = true)
    (hauth : w.canRetrieveAssetConsumption = true)
    (hid : w.reqAssetID = some assetID)
    (hne : assetID ≠ (""))
    (hget : w.getAsset assetID = some asset)
    (hdyn : asset.dynamicAsset = true)
    (himpl : w.getAssetImpl asset.connectionID = some assetImpl)
    (hret : assetImpl.retrieveConsumptions asset true = []) :
    handleRetrieveConsumption w = (.ok .success, {}) := by
  simp [handleRetrieveConsumption, hact, hauth, hid, hget, hdyn, himpl, hret,
    strTruthy, String.isEmpty_iff, hne, isEmptyArray]

/-- A connector returning no samples. -/
def impl6 : AssetImpl :=
  { checkConnection := .ok (), retrieveConsumptions := fun _ _ => [] }

/-- World of the C6 instantiation: dynamic asset, connector with no
samples. -/
def w6 : World :=
  { baseWorld with
    getAsset := fun _ => some baseAsset,
    getAssetImpl := fun _ => some impl6 }

/-- C6 witness: the concrete world `w6` satisfies every hypothesis of
`C6_empty_sequence_soft_success` and exhibits its conclusion. -/
theorem C6_witness :
    w6.componentActive = true ∧ w6.canRetrieveAssetConsumption = true ∧
    w6.reqAssetID = some ("A1") ∧ ("A1") ≠ ("") ∧
    w6.getAsset ("A1") = some baseAsset ∧
    baseAsset.dynamicAsset = true ∧
    w6.getAssetImpl baseAsset.connectionID = some impl6 ∧
    impl6.retrieveConsumptions baseAsset true = [] ∧
    handleRetrieveConsumption w6 = (.ok .success, {}) :=
  ⟨by rfl, by rfl, by rfl, by decide, by rfl, by rfl, by rfl, by rfl,
    C6_empty_sequence_soft_success w6 ("A1") baseAsset impl6 (by rfl) (by rfl)
      (by rfl) (by decide) (by rfl) (by rfl) (by rfl) (by rfl)⟩

/-- C9: for every dynamic asset whose resolved connector returns a
non-empty sequence whose first element is null, the operation performs
no merge and no save (the effect trace is empty) and still answers
with the success acknowledgment, the same outward behaviour as the
empty-sequence case. -/
theorem C9_null_first_sample_soft_success (w : World) (assetID : String)
    (asset : Asset) (assetImpl : AssetImpl) (rest : List (Option Consumption))
    (hact : w.componentActive = true)
    (hauth : w.canRetrieveAssetConsumption = true)
    (hid : w.reqAssetID = some assetID)
    (hne : assetID ≠ (""))
    (hget : w.getAsset assetID = some asset)
    (hdyn : asset.dynamicAsset = true)
    (himpl : w.getAssetImpl asset.connectionID = some assetImpl)
    (hret : assetImpl.retrieveConsumptions asset true = none :: rest) :
    handleRetrieveConsumption w = (.ok .success, {}) := by
  simp [handleRetrieveConsumption, hact, hauth, hid, hget, hdyn, himpl, hret,
    strTruthy, String.isEmpty_iff, hne, isEmptyArray]

/-- A connector returning one null sample. -/
def impl9 : AssetImpl :=
  { checkConnection := .ok (), retrieveConsumptions := fun _ _ => [none] }

/-- World of the C9 instantiation: dynamic asset, connector answering
with a single null element. -/
def w9 : World :=
  { baseWorld with
    getAsset := fun _ => some baseAsset,
    getAssetImpl := fun _ => some impl9 }

/-- C9 witness: the concrete world `w9` satisfies every hypothesis of
`C9_null_first_sample_soft_success` and exhibits its conclusion. -/
theorem C9_witness :
    w9.componentActive = true ∧ w9.canRetrieveAssetConsumption = true ∧
    w9.reqAssetID = some ("A1") ∧ ("A1") ≠ ("") ∧
    w9.getAsset ("A1") = some baseAsset ∧
    baseAsset.dynamicAsset = true ∧
    w9.getAssetImpl baseAsset.connectionID = some impl9 ∧
    impl9.retrieveConsumptions baseAsset true = [none] ∧
    handleRetrieveConsumption w9 = (.ok .success, {}) :=
  ⟨by rfl, by rfl, by rfl, by decide, by rfl, by rfl, by rfl, by rfl,
    C9_null_first_sample_soft_success w9 ("A1") baseAsset impl9 [] (by rfl)
      (by rfl) (by rfl) (by decide) (by rfl) (by rfl) (by rfl) (by rfl)⟩

/-- C4: once a connector handle is resolved and the caller authorized,
the health check never lets the probe failure escape: a throwing probe
yields the success response with `connectionIsValid = false` plus one
logged diagnostic carrying the probe message, and a succeeding probe
yields the success response with `connectionIsValid = true`. -/
theorem C4_check_connection_never_throws (w : World) (assetImpl : AssetImpl)
    (hact : w.componentActive = true)
    (himpl : w.getAssetImpl w.reqAssetID = some assetImpl)
    (hauth : w.canCheckAssetConnection = true) :
    (∀ errMsg, assetImpl.checkConnection = .error errMsg →
      handleCheckAssetConnection w =
        (.ok (.successWithConnection false),
          { loggedErrors := [(("Asset connection failed"), errMsg)] }))
    ∧ (assetImpl.checkConnection = .ok () →
      handleCheckAssetConnection w =
        (.ok (.successWithConnection true), {})) := by
  constructor
  · intro errMsg hprobe
    simp [handleCheckAssetConnection, hact, himpl, hauth, hprobe]
  · intro hprobe
    simp [handleCheckAssetConnection, hact, himpl, hauth, hprobe]

/-- A connector whose health probe throws. -/
def implThrow : AssetImpl :=
  { checkConnection := .error ("connect ECONNREFUSED"),
    retrieveConsumptions := fun _ _ => [] }

/-- World of the C4 instantiation: the registry resolves the throwing
connector `implThrow`. -/
def w4 : World :=
  { baseWorld with getAssetImpl := fun _ => some implThrow }

/-- C4 witness: with the throwing connector of `w4` the health check
completes with `connectionIsValid = false` and one logged
diagnostic. -/
theorem C4_witness :
    w4.componentActive = true ∧
    w4.getAssetImpl w4.reqAssetID = some implThrow ∧
    w4.canCheckAssetConnection = true ∧
    implThrow.checkConnection = .error ("connect ECONNREFUSED") ∧
    handleCheckAssetConnection w4 =
      (.ok (.successWithConnection false),
        { loggedErrors :=
            [(("Asset connection failed"), ("connect ECONNREFUSED"))] }) :=
  ⟨by rfl, by rfl, by rfl, by rfl,
    (C4_check_connection_never_throws w4 implThrow (by rfl) (by rfl)
      (by rfl)).1 ("connect ECONNREFUSED") (by rfl)⟩

/-- C5: when the connector registry resolves no handle, the health
check fails with the `NotConfigured` error "Asset service is not
configured", and the live retrieval (reached with a dynamic asset)
fails with the same error; neither throws anything else and neither
touches a collaborator (the effect traces are empty). -/
theorem C5_unresolved_connector_not_configured (w : World) :
    (w.componentActive = true → w.getAssetImpl w.reqAssetID = none →
      handleCheckAssetConnection w =
        (.error (.appError ("Asset service is not configured")), {}))
    ∧ (∀ assetID asset, w.componentActive = true →
      w.canRetrieveAssetConsumption = true →
      w.reqAssetID = some assetID → assetID ≠ ("") →
      w.getAsset assetID = some asset → asset.dynamicAsset = true →
      w.getAssetImpl asset.connectionID = none →
      handleRetrieveConsumption w =
        (.error (.appError ("Asset service is not configured")), {})) := by
  constructor
  · intro hact himpl
    simp [handleCheckAssetConnection, hact, himpl]
  · intro assetID asset hact hauth hid hne hget hdyn himpl
    simp [handleRetrieveConsumption, hact, hauth, hid, hget, hdyn, himpl,
      strTruthy, String.isEmpty_iff, hne]

/-- World of the C5 retrieval instantiation: dynamic asset `A1` exists
but no connector is configured. -/
def w5 : World := { baseWorld with getAsset := fun _ => some baseAsset }

/-- C5 witness: in `baseWorld` (no connector configured) the health
check fails with `NotConfigured`, and in `w5` (dynamic asset, no
connector) the live retrieval fails with `NotConfigured`. -/
theorem C5_witness :
    baseWorld.componentActive = true ∧
    baseWorld.getAssetImpl baseWorld.reqAssetID = none ∧
    handleCheckAssetConnection baseWorld =
      (.error (.appError ("Asset service is not configured")), {}) ∧
    w5.getAsset ("A1") = some baseAsset ∧
    baseAsset.dynamicAsset = true ∧
    w5.getAssetImpl baseAsset.connectionID = none ∧
    handleRetrieveConsumption w5 =
      (.error (.appError ("Asset service is not configured")), {}) :=
  ⟨by rfl, by rfl,
    (C5_unresolved_connector_not_configured baseWorld).1 (by rfl) (by rfl),
    by rfl, by rfl, by rfl,
    (C5_unresolved_connector_not_configured w5).2 ("A1") baseAsset (by rfl)
      (by rfl) (by rfl) (by decide) (by rfl) (by rfl) (by rfl)⟩

/-- C10: in the health check the connector is resolved and the
`NotConfigured` error raised before the authorization check: when no
handle resolves, the operation fails with "Asset service is not
configured" for every value of the caller's
`canCheckAssetConnection` permission, in particular for an
unauthorized caller. -/
theorem C10_not_configured_precedes_authorization (w : World) (b : Bool)
    (hact : w.componentActive = true)
    (himpl : w.getAssetImpl w.reqAssetID = none) :
    handleCheckAssetConnection { w with canCheckAssetConnection := b } =
      (.error (.appError ("Asset service is not configured")), {}) := by
  simp [handleCheckAssetConnection, hact, himpl]

/-- C10 witness: an unauthorized caller in a world whose registry
resolves nothing still observes the `NotConfigured` failure. -/
theorem C10_witness :
    baseWorld.componentActive = true ∧
    baseWorld.getAssetImpl baseWorld.reqAssetID = none ∧
    ({ baseWorld with
        canCheckAssetConnection := false } : World).canCheckAssetConnection
      = false ∧
    handleCheckAssetConnection
        { baseWorld with canCheckAssetConnection := false } =
      (.error (.appError ("Asset service is not configured")), {}) :=
  ⟨by rfl, by rfl, by rfl,
    C10_not_configured_precedes_authorization baseWorld false (by rfl)
      (by rfl)⟩

/-- C7: the historical-consumption query validates in order — asset
existence first (its `NotFound` error wins over any date problem),
then presence of both dates, then the date order with a message built
from both ISO-formatted dates — and the consumption store is queried
exactly once, only after all three validations pass; on every failing
path the effect trace is empty, so `getAssetConsumptions` is never
called when the start date is after the end date. -/
theorem C7_validation_order_guards_store (w : World) (assetID : String)
    (hact : w.componentActive = true)
    (hid : w.reqAssetID = some assetID)
    (hne : assetID ≠ (""))
    (hauth : w.canReadAsset = true) :
    (w.getAsset assetID = none →
      handleGetAssetConsumption w =
        (.error (.objectNotFound (assetNotFoundMsg assetID)), {}))
    ∧ (∀ asset, w.getAsset assetID = some asset →
      w.reqStartDate = none ∨ w.reqEndDate = none →
      handleGetAssetConsumption w =
        (.error (.appError ("Start date and end date must be provided")), {}))
    ∧ (∀ asset startDate endDate, w.getAsset assetID = some asset →
      w.reqStartDate = some startDate → w.reqEndDate = some endDate →
      startDate.millis > endDate.millis →
      handleGetAssetConsumption w =
        (.error (.appError (startAfterEndMsg startDate endDate)), {}))
    ∧ (∀ asset startDate endDate, w.getAsset assetID = some asset →
      w.reqStartDate = some startDate → w.reqEndDate = some endDate →
      ¬ startDate.millis > endDate.millis →
      handleGetAssetConsumption w =
        (.ok (.jsonAsset { asset with values := w.assetConsumptionsResult }),
          { consumptionQueries :=
              [{ assetID := assetID, startDate := startDate,
                 endDate := endDate }] })) := by
  refine ⟨?_, ?_, ?_, ?_⟩
  · intro hget
    simp [handleGetAssetConsumption, hact, hid, hget, hauth, strTruthy,
      String.isEmpty_iff, hne]
  · intro asset hget hdates
    rcases hdates with hs | he
    · simp [handleGetAssetConsumption, hact, hid, hget, hauth, hs, strTruthy,
        String.isEmpty_iff, hne]
    · cases hsd : w.reqStartDate <;>
        simp [handleGetAssetConsumption, hact, hid, hget, hauth, hsd, he,
          strTruthy, String.isEmpty_iff, hne]
  · intro asset startDate endDate hget hs he hafter
    simp [handleGetAssetConsumption, hact, hid, hget, hauth, hs, he, hafter,
      strTruthy, String.isEmpty_iff, hne]
  · intro asset startDate endDate hget hs he hafter
    simp [handleGetAssetConsumption, hact, hid, hget, hauth, hs, he, hafter,
      strTruthy, String.isEmpty_iff, hne]

/-- The start date of the C7 scenario, after its end date. -/
def lateStart : JSDate :=
  { millis := 1682899200000, iso := ("2023-05-01T00:00:00.000Z") }

/-- The end date of the C7 scenario, before its start date. -/
def earlyEnd : JSDate :=
  { millis := 1680307200000, iso := ("2023-04-01T00:00:00.000Z") }

/-- World of the C7 scenario: asset `A1` exists, the requested range
starts after it ends. -/
def w7 : World :=
  { baseWorld with
    getAsset := fun _ => some baseAsset,
    reqStartDate := some lateStart,
    reqEndDate := some earlyEnd }

/-- C7 witness: the start-after-end scenario fails with the message
carrying both ISO dates and the consumption store is not queried. -/
theorem C7_witness :
    w7.componentActive = true ∧ w7.reqAssetID = some ("A1") ∧
    w7.canReadAsset = true ∧
    w7.getAsset ("A1") = some baseAsset ∧
    w7.reqStartDate = some lateStart ∧ w7.reqEndDate = some earlyEnd ∧
    lateStart.millis > earlyEnd.millis ∧
    handleGetAssetConsumption w7 =
      (.error (.appError (startAfterEndMsg lateStart earlyEnd)), {}) ∧
    startAfterEndMsg lateStart earlyEnd =
      ("The requested start date " ++ quo ++ "2023-05-01T00:00:00.000Z" ++
        quo ++ " is after the end date " ++ quo ++
        "2023-04-01T00:00:00.000Z" ++ quo ++ " ") := by
  refine ⟨by rfl, by rfl, by rfl, by rfl, by rfl, by rfl, by decide, ?_,
    by rfl⟩
  exact (C7_validation_order_guards_store w7 ("A1") (by rfl) (by rfl)
    (by decide) (by rfl)).2.2.1 baseAsset lateStart earlyEnd (by rfl) (by rfl)
    (by rfl) (by decide)

/-- C8: the error-listing operation queries the store exactly once;
when `ErrorType` is absent the error filter is the single default
missing-site-area category, when `ErrorType`, `SiteAreaID` or `SiteID`
are present as non-empty strings they are split on the bar character
into lists before being passed to the store, and the store result is
returned as the response. -/
theorem C8_in_error_filter_normalisation (w : World)
    (hact : w.componentActive = true)
    (hauth : w.canListAssetsInError = true) :
    (w.reqErrorType = none →
      ((handleGetAssetsInError w).2.inErrorQueries.map fun q => q.errorType) =
        [[MISSING_SITE_AREA]])
    ∧ (∀ s, w.reqErrorType = some s → s ≠ ("") →
      ((handleGetAssetsInError w).2.inErrorQueries.map fun q => q.errorType) =
        [jsSplit s (Char.ofNat 124)])
    ∧ (∀ s, w.reqSiteAreaID = some s → s ≠ ("") →
      ((handleGetAssetsInError w).2.inErrorQueries.map fun q =>
          q.siteAreaIDs) =
        [some (jsSplit s (Char.ofNat 124))])
    ∧ (∀ s, w.reqSiteID = some s → s ≠ ("") →
      ((handleGetAssetsInError w).2.inErrorQueries.map fun q => q.siteIDs) =
        [some (jsSplit s (Char.ofNat 124))])
    ∧ (handleGetAssetsInError w).2.inErrorQueries.length = 1
    ∧ (handleGetAssetsInError w).1 =
        .ok (.jsonAssets w.assetsInErrorResult) := by
  refine ⟨?_, ?_, ?_, ?_, ?_, ?_⟩
  · intro hET
    simp [handleGetAssetsInError, hact, hauth, hET]
  · intro s hET hne
    simp [handleGetAssetsInError, hact, hauth, hET, String.isEmpty_iff, hne]
  · intro s hSA hne
    simp [handleGetAssetsInError, hact, hauth, hSA, String.isEmpty_iff, hne]
  · intro s hSID hne
    simp [handleGetAssetsInError, hact, hauth, hSID, String.isEmpty_iff, hne]
  · simp [handleGetAssetsInError, hact, hauth]
  · simp [handleGetAssetsInError, hact, hauth]

/-- World of the C8 scenario: `SiteAreaID = "s1|s2"`, no `ErrorType`. -/
def w8 : World := { baseWorld with reqSiteAreaID := some ("s1|s2") }

/-- C8 witness: the scenario of the specification — the store is
called with `siteAreaIDs = ["s1", "s2"]` and
`errorType = ["missing site area"]`. -/
theorem C8_witness :
    w8.componentActive = true ∧ w8.canListAssetsInError = true ∧
    w8.reqErrorType = none ∧ w8.reqSiteAreaID = some ("s1|s2") ∧
    ((handleGetAssetsInError w8).2.inErrorQueries.map fun q => q.errorType) =
      [[("missing site area")]] ∧
    ((handleGetAssetsInError w8).2.inErrorQueries.map fun q => q.siteAreaIDs) =
      [some [("s1"), ("s2")]] := by
  obtain ⟨h1, h2, h3, h4, h5, h6⟩ :=
    C8_in_error_filter_normalisation w8 (by rfl) (by rfl)
  refine ⟨by rfl, by rfl, by rfl, by rfl, ?_, ?_⟩
  · rw [h1 (by rfl)]
    decide
  · rw [h3 ("s1|s2") (by rfl) (by decide)]
    decide

end AssetSvc
